import Mathlib

/-!
Verification of the flight-management repository's core logic:
the data model (`Flight`, `Booking`), flight creation (`FlightDBC.add_flight`),
query construction (`FlightDBC.get_flights`), and the booking/cancellation
state transition (`FlightDBC.book_flight`), shallowly embedded from
`FlightDataBaseConnector.py`.  Timestamps are modelled as `Int` (ordered
instants); passenger fields that may be Python `None` are `Option`s.
-/

namespace FlightMS

/-- Seat booking status, from `class BookingStatus(StrEnum)` with members
AVAILABLE and BOOKED. -/
inductive BookingStatus where
  | available
  | booked
  deriving DecidableEq

/-- Per-seat booking record, from `class Booking(BaseModel)`.
`passenger_name`, `passenger_id` and `booking_time` are `None` (here `none`)
while the seat is available. -/
structure Booking where
  seat_number : String
  booking_status : BookingStatus
  passenger_name : Option String
  passenger_id : Option String
  booking_time : Option Int
  deriving DecidableEq

/-- Flight document, from `class Flight(Document)`. -/
structure Flight where
  flight_number : String
  departure_time : Int
  origin : String
  destination : String
  estimated_arrival_time : Int
  seats_total : Int
  seats_available : Int
  bookings : List Booking
  deriving DecidableEq

/-- Error outcomes of the repository operations, from the spec's error
taxonomy; the Python code reports them as console messages and early returns
(`validate_arrival_time` raises ValueError, `book_flight` prints and
returns). -/
inductive FMError where
  | validationError
  | seatNotFound
  | noOpTransition
  | identityMismatch
  deriving DecidableEq

/-- `FlightDBC.add_flight`: constructs a `Flight` with `seats_total =
seats_available = flight_size` and one AVAILABLE booking per seat, numbered
from 1.  The pydantic validator `Flight.validate_arrival_time` raises
(modelled as `.error .validationError`) when
`estimated_arrival_time <= departure_time`. -/
def add_flight (flight_number : String) (departure_time : Int)
    (origin destination : String) (estimated_arrival_time : Int)
    (flight_size : Int) : Except FMError Flight :=
  if estimated_arrival_time ≤ departure_time then
    .error .validationError
  else
    .ok
      { flight_number := flight_number
        departure_time := departure_time
        origin := origin
        destination := destination
        estimated_arrival_time := estimated_arrival_time
        seats_total := flight_size
        seats_available := flight_size
        bookings := (List.range flight_size.toNat).map (fun i =>
          { seat_number := toString (i + 1)
            booking_status := .available
            passenger_name := none
            passenger_id := none
            booking_time := none }) }

/-- `add_flight` at the level of the stored collection: on success the new
flight is persisted (`await flight.save()`), on a validation error nothing
is (the exception is raised before `save`). -/
def add_flight_to_store (store : List Flight) (flight_number : String)
    (departure_time : Int) (origin destination : String)
    (estimated_arrival_time : Int) (flight_size : Int) :
    Except FMError Flight × List Flight :=
  match add_flight flight_number departure_time origin destination
      estimated_arrival_time flight_size with
  | .error e => (.error e, store)
  | .ok fl => (.ok fl, store ++ [fl])

/-- The seat lookup performed by the `for booking in flight.bookings` loop in
`FlightDBC.book_flight`: the first booking whose `seat_number` matches. -/
def findBooking : List Booking → String → Option Booking
  | [], _ => none
  | b :: rest, seat =>
    if b.seat_number = seat then some b else findBooking rest seat

/-- The body of the `for booking in flight.bookings` loop in
`FlightDBC.book_flight`, acting on the bookings list: at the first booking
whose `seat_number` matches it either fails (already in the requested
status; identity mismatch on cancellation) or rewrites that booking and
reports the `seats_available` delta (`-1` for booking, `+1` for
cancellation).  If no booking matches, the loop falls through to the
"seat number wrong" message (`.seatNotFound`). -/
def applyToBookings (bs : List Booking) (seat passenger_name passenger_id :
    String) (status : BookingStatus) (now : Int) :
    Except FMError (List Booking × Int) :=
  match bs with
  | [] => .error .seatNotFound
  | b :: rest =>
    if b.seat_number = seat then
      if b.booking_status = status then
        .error .noOpTransition
      else if status = .available ∧
          (b.passenger_id ≠ some passenger_id ∨
           b.passenger_name ≠ some passenger_name) then
        .error .identityMismatch
      else
        .ok
          ({ b with
              passenger_name :=
                if status = .available then none else some passenger_name
              passenger_id :=
                if status = .available then none else some passenger_id
              booking_status := status
              booking_time :=
                if status = .available then none else some now } :: rest,
           if status = .booked then -1 else 1)
    else
      match applyToBookings rest seat passenger_name passenger_id status now
          with
      | .error e => .error e
      | .ok (rest', d) => .ok (b :: rest', d)

/-- `FlightDBC.book_flight` acting on an already-fetched flight (`now` is the
current time used for `booking_time`): on success the updated flight, with
`seats_available` adjusted by the loop's delta, is what gets saved. -/
def book_flight (f : Flight) (seat passenger_name passenger_id : String)
    (status : BookingStatus) (now : Int) : Except FMError Flight :=
  match applyToBookings f.bookings seat passenger_name passenger_id status
      now with
  | .error e => .error e
  | .ok (bs', d) =>
    .ok { f with bookings := bs', seats_available := f.seats_available + d }

/-- The stored flight after a `book_flight` call: the Python error paths
`return` before any field assignment or `save`, so on error the persisted
document is unchanged. -/
def book_flight_persisted (f : Flight) (seat passenger_name passenger_id :
    String) (status : BookingStatus) (now : Int) : Flight :=
  match book_flight f seat passenger_name passenger_id status now with
  | .error _ => f
  | .ok f' => f'

/-- Number of bookings currently AVAILABLE (the quantity `seats_available`
is meant to track). -/
def countAvailable (bs : List Booking) : Nat :=
  (bs.filter (fun b => b.booking_status = BookingStatus.available)).length

/-- A value a query condition can compare against: the Flight document's
string fields or its timestamp fields. -/
inductive FieldVal where
  | str (s : String)
  | time (t : Int)
  deriving DecidableEq

/-- One MongoDB filter condition as built by `FlightDBC.get_flights`:
equality on a string field, or the range operators on a timestamp. -/
inductive Cond where
  | eqStr (s : String)
  | gteTime (t : Int)
  | ltTime (t : Int)
  deriving DecidableEq

/-- Field lookup on a stored Flight document, modelling the document store's
view of the schema of `class Flight(Document)`.  A key that is not a field
of the document (in particular the literal key `departure_time__lt` built by
the `end_time` branch of `get_flights`) is absent. -/
def Flight.getField (f : Flight) : String → Option FieldVal
  | "flight_number" => some (.str f.flight_number)
  | "origin" => some (.str f.origin)
  | "destination" => some (.str f.destination)
  | "departure_time" => some (.time f.departure_time)
  | "estimated_arrival_time" => some (.time f.estimated_arrival_time)
  | _ => none

/-- MongoDB matching of one condition against a (possibly absent) field
value: equality against a non-null value and the `lt`/`gte` range operators
against a date match only documents where the field is present with a value
of the comparable type. -/
def condMatches (v : Option FieldVal) : Cond → Bool
  | .eqStr s =>
    match v with
    | some (.str s') => s' = s
    | _ => false
  | .gteTime t =>
    match v with
    | some (.time t') => t ≤ t'
    | _ => false
  | .ltTime t =>
    match v with
    | some (.time t') => t' < t
    | _ => false

/-- The filter dictionary built by `FlightDBC.get_flights`, as the list of
its (key, condition) entries in insertion order.  A `none` parameter is
Python `None`; the `if flight_number:` / `if origin:` / `if destination:`
guards also skip the empty string (falsy in Python), while any datetime is
truthy.  The `end_time` branch stores its condition under the literal key
`"departure_time__lt"` exactly as the source does. -/
def buildQuery (flight_number origin destination : Option String)
    (start_time end_time : Option Int) : List (String × Cond) :=
  (match flight_number with
   | some s => if s = "" then [] else [("flight_number", Cond.eqStr s)]
   | none => []) ++
  (match origin with
   | some s => if s = "" then [] else [("origin", Cond.eqStr s)]
   | none => []) ++
  (match destination with
   | some s => if s = "" then [] else [("destination", Cond.eqStr s)]
   | none => []) ++
  (match start_time with
   | some t => [("departure_time", Cond.gteTime t)]
   | none => []) ++
  (match end_time with
   | some t => [("departure_time__lt", Cond.ltTime t)]
   | none => [])

/-- A document matches a filter dictionary when it satisfies every entry
(MongoDB conjunction). -/
def matchesQuery (f : Flight) (q : List (String × Cond)) : Bool :=
  q.all (fun kc => condMatches (f.getField kc.1) kc.2)

/-- `FlightDBC.get_flights`: `Flight.find(query).to_list()` over the stored
collection, i.e. the flights matching the built filter, in storage order. -/
def get_flights (store : List Flight) (flight_number origin destination :
    Option String) (start_time end_time : Option Int) : List Flight :=
  store.filter (fun f =>
    matchesQuery f (buildQuery flight_number origin destination start_time
      end_time))

/-! ### Helper lemmas about query matching -/

lemma matchesQuery_nil (f : Flight) : matchesQuery f [] = true := rfl

lemma matchesQuery_cons (f : Flight) (kc : String × Cond)
    (q : List (String × Cond)) :
    matchesQuery f (kc :: q) =
      (condMatches (f.getField kc.1) kc.2 && matchesQuery f q) := rfl

lemma buildQuery_none : buildQuery none none none none none = [] := rfl

lemma buildQuery_end_time (E : Int) :
    buildQuery none none none none (some E) =
      [("departure_time__lt", Cond.ltTime E)] := rfl

lemma getField_bad_key (f : Flight) :
    f.getField "departure_time__lt" = none := rfl

/-- A sample stored flight used to exercise the query operations on
concrete data. -/
def demoFlight : Flight :=
  { flight_number := "CA9"
    departure_time := 0
    origin := "A"
    destination := "B"
    estimated_arrival_time := 9
    seats_total := 2
    seats_available := 2
    bookings :=
      [{ seat_number := "1", booking_status := .available,
         passenger_name := none, passenger_id := none, booking_time := none },
       { seat_number := "2", booking_status := .available,
         passenger_name := none, passenger_id := none, booking_time := none }] }

/-- Claim C1: the end_time-only query never returns anything, because the
filter is keyed on the nonexistent field `departure_time__lt`; in
particular it misses `demoFlight`, whose `departure_time = 0` is strictly
below the bound 10 and which the claim says should be returned. -/
theorem end_time_filter_selects_nothing :
    demoFlight.departure_time < 10 ∧
    get_flights [demoFlight] none none none none (some 10) = [] ∧
    ∀ (store : List Flight) (E : Int),
      get_flights store none none none none (some E) = [] := by
  refine ⟨by decide, rfl, ?_⟩
  intro store E
  induction store with
  | nil => rfl
  | cons hd tl ih =>
    simp only [get_flights] at ih ⊢
    rw [List.filter_cons]
    simp [buildQuery_end_time, matchesQuery_cons, getField_bad_key,
      condMatches, ih]

lemma getField_flight_number (f : Flight) :
    f.getField "flight_number" = some (.str f.flight_number) := rfl

lemma getField_departure_time (f : Flight) :
    f.getField "departure_time" = some (.time f.departure_time) := rfl

lemma condMatches_eqStr (x s : String) :
    condMatches (some (.str x)) (.eqStr s) = decide (x = s) := rfl

lemma condMatches_gteTime (x t : Int) :
    condMatches (some (.time x)) (.gteTime t) = decide (t ≤ x) := rfl

lemma buildQuery_only_flight_number (s : String) (hs : s ≠ "") :
    buildQuery (some s) none none none none =
      [("flight_number", Cond.eqStr s)] := by
  simp [buildQuery, hs]

lemma buildQuery_only_start_time (T : Int) :
    buildQuery none none none (some T) none =
      [("departure_time", Cond.gteTime T)] := rfl

/-- Claim C9: the no-filter query returns the whole store; the
flight_number-only query returns exactly the flights with that exact
number; the start_time-only query returns exactly the flights departing at
or after the bound. -/
theorem query_basic_filters (store : List Flight) (s : String) (T : Int)
    (hs : s ≠ "") :
    get_flights store none none none none none = store ∧
    get_flights store (some s) none none none none =
      store.filter (fun f => f.flight_number = s) ∧
    get_flights store none none none (some T) none =
      store.filter (fun f => T ≤ f.departure_time) := by
  refine ⟨?_, ?_, ?_⟩
  · simp [get_flights, buildQuery_none, matchesQuery_nil]
  · rw [get_flights]
    refine List.filter_congr ?_
    intro f _
    rw [buildQuery_only_flight_number s hs, matchesQuery_cons,
      getField_flight_number, condMatches_eqStr, matchesQuery_nil,
      Bool.and_true]
  · rw [get_flights]
    refine List.filter_congr ?_
    intro f _
    rw [buildQuery_only_start_time, matchesQuery_cons,
      getField_departure_time, condMatches_gteTime, matchesQuery_nil,
      Bool.and_true]

/-- Closed instance of `query_basic_filters` on a one-flight store. -/
theorem query_basic_filters_witness :
    get_flights [demoFlight] none none none none none = [demoFlight] ∧
    get_flights [demoFlight] (some "CA9") none none none none =
      [demoFlight].filter (fun f => f.flight_number = "CA9") ∧
    get_flights [demoFlight] none none none (some 3) none =
      [demoFlight].filter (fun f => (3 : Int) ≤ f.departure_time) :=
  query_basic_filters [demoFlight] "CA9" 3 (by decide)

lemma buildQuery_empty_first (o d : Option String) (st et : Option Int) :
    buildQuery (some "") o d st et = buildQuery none o d st et := by
  simp [buildQuery]

lemma buildQuery_empty_second (fn d : Option String) (st et : Option Int) :
    buildQuery fn (some "") d st et = buildQuery fn none d st et := by
  simp [buildQuery]

lemma buildQuery_empty_third (fn o : Option String) (st et : Option Int) :
    buildQuery fn o (some "") st et = buildQuery fn o none st et := by
  simp [buildQuery]

/-- Claim C10: passing the empty string for flight_number, origin or
destination builds the same filter as omitting it, so the query results
agree; and once a non-empty flight_number filter is applied, a flight whose
flight_number is the empty string is never selected. -/
theorem query_empty_string_unconstrained (store : List Flight)
    (fn o d : Option String) (st et : Option Int) (s : String) (f : Flight)
    (hs : s ≠ "") (hf : f.flight_number = "") :
    get_flights store (some "") o d st et = get_flights store none o d st et ∧
    get_flights store fn (some "") d st et =
      get_flights store fn none d st et ∧
    get_flights store fn o (some "") st et =
      get_flights store fn o none st et ∧
    f ∉ get_flights store (some s) o d st et := by
  refine ⟨?_, ?_, ?_, ?_⟩
  · rw [get_flights, get_flights, buildQuery_empty_first]
  · rw [get_flights, get_flights, buildQuery_empty_second]
  · rw [get_flights, get_flights, buildQuery_empty_third]
  · intro hmem
    rw [get_flights, List.mem_filter] at hmem
    have hm := hmem.2
    have hq : buildQuery (some s) o d st et =
        ("flight_number", Cond.eqStr s) :: buildQuery none o d st et := by
      simp [buildQuery, hs]
    rw [hq, matchesQuery_cons, getField_flight_number, condMatches_eqStr,
      Bool.and_eq_true, decide_eq_true_eq] at hm
    exact hs (hf ▸ hm.1.symm ▸ rfl)

/-- A stored flight whose flight_number is the empty string. -/
def demoNoName : Flight :=
  { demoFlight with flight_number := "" }

/-- Closed instance of `query_empty_string_unconstrained`. -/
theorem query_empty_string_unconstrained_witness :
    get_flights [demoFlight, demoNoName] (some "") none none none none =
      get_flights [demoFlight, demoNoName] none none none none none ∧
    get_flights [demoFlight, demoNoName] none (some "") none none none =
      get_flights [demoFlight, demoNoName] none none none none none ∧
    get_flights [demoFlight, demoNoName] none none (some "") none none =
      get_flights [demoFlight, demoNoName] none none none none none ∧
    demoNoName ∉ get_flights [demoFlight, demoNoName] (some "CA9") none none
      none none :=
  query_empty_string_unconstrained [demoFlight, demoNoName] none none none
    none none "CA9" demoNoName (by decide) rfl

/-! ### Flight creation -/

/-- Claim C2: with a valid time pair, creating a flight with `N` seats
yields exactly `N` bookings, all AVAILABLE with no passenger data and no
booking time, and `seats_available = seats_total = N`. -/
theorem create_flight_spec (fn : String) (dep : Int) (o d : String)
    (arr : Int) (N : Nat) (h : dep < arr) :
    ∃ fl, add_flight fn dep o d arr (N : Int) = .ok fl ∧
      fl.bookings.length = N ∧
      (∀ b ∈ fl.bookings, b.booking_status = .available ∧
        b.passenger_name = none ∧ b.passenger_id = none ∧
        b.booking_time = none) ∧
      fl.seats_available = (N : Int) ∧ fl.seats_total = (N : Int) := by
  rw [add_flight, if_neg (not_le.mpr h)]
  refine ⟨_, rfl, ?_, ?_, rfl, rfl⟩
  · simp
  · intro b hb
    simp only [List.mem_map] at hb
    obtain ⟨i, _, rfl⟩ := hb
    exact ⟨rfl, rfl, rfl, rfl⟩

/-- Closed instance of `create_flight_spec` with two seats. -/
theorem create_flight_spec_witness :
    ∃ fl, add_flight "CA9" 0 "A" "B" 9 ((2 : Nat) : Int) = .ok fl ∧
      fl.bookings.length = 2 ∧
      (∀ b ∈ fl.bookings, b.booking_status = .available ∧
        b.passenger_name = none ∧ b.passenger_id = none ∧
        b.booking_time = none) ∧
      fl.seats_available = ((2 : Nat) : Int) ∧
      fl.seats_total = ((2 : Nat) : Int) :=
  create_flight_spec "CA9" 0 "A" "B" 9 2 (by decide)

/-- Claim C8: when `estimated_arrival_time ≤ departure_time`, creation
fails with the validation error and the stored collection is unchanged. -/
theorem create_invalid_times (store : List Flight) (fn : String) (dep : Int)
    (o d : String) (arr size : Int) (h : arr ≤ dep) :
    add_flight_to_store store fn dep o d arr size =
      (.error .validationError, store) := by
  rw [add_flight_to_store, add_flight, if_pos h]

/-- Closed instance of `create_invalid_times`: equal departure and arrival
times are rejected and persist nothing. -/
theorem create_invalid_times_witness :
    add_flight_to_store [demoFlight] "CA9" 9 "A" "B" 9 2 =
      (.error .validationError, [demoFlight]) :=
  create_invalid_times [demoFlight] "CA9" 9 "A" "B" 9 2 (by decide)

/-! ### Booking transition lemmas -/

/-- The booking record written by a successful booking transition. -/
def bookedBooking (b : Booking) (passenger_name passenger_id : String)
    (now : Int) : Booking :=
  { b with booking_status := .booked, passenger_name := some passenger_name,
           passenger_id := some passenger_id, booking_time := some now }

/-- The booking record written by a successful cancellation. -/
def clearedBooking (b : Booking) : Booking :=
  { b with booking_status := .available, passenger_name := none,
           passenger_id := none, booking_time := none }

lemma applyToBookings_noOp (seat pn pid : String) (status : BookingStatus)
    (now : Int) (bs : List Booking) (b : Booking)
    (hfind : findBooking bs seat = some b)
    (hst : b.booking_status = status) :
    applyToBookings bs seat pn pid status now = .error .noOpTransition := by
  induction bs with
  | nil => simp [findBooking] at hfind
  | cons hd tl ih =>
    rw [findBooking] at hfind
    rw [applyToBookings]
    by_cases h : hd.seat_number = seat
    · rw [if_pos h] at hfind ⊢
      obtain rfl : hd = b := Option.some.inj hfind
      rw [if_pos hst]
    · rw [if_neg h] at hfind ⊢
      rw [ih hfind]

lemma applyToBookings_mismatch (seat pn pid : String) (now : Int)
    (bs : List Booking) (b : Booking)
    (hfind : findBooking bs seat = some b)
    (hbk : b.booking_status = .booked)
    (hmm : b.passenger_id ≠ some pid ∨ b.passenger_name ≠ some pn) :
    applyToBookings bs seat pn pid .available now =
      .error .identityMismatch := by
  induction bs with
  | nil => simp [findBooking] at hfind
  | cons hd tl ih =>
    rw [findBooking] at hfind
    rw [applyToBookings]
    by_cases h : hd.seat_number = seat
    · rw [if_pos h] at hfind ⊢
      obtain rfl : hd = b := Option.some.inj hfind
      rw [if_neg (by simp [hbk]), if_pos ⟨rfl, hmm⟩]
    · rw [if_neg h] at hfind ⊢
      rw [ih hfind]

lemma applyToBookings_book (seat pn pid : String) (now : Int)
    (bs : List Booking) (b : Booking)
    (hfind : findBooking bs seat = some b)
    (hav : b.booking_status = .available) :
    ∃ bs', applyToBookings bs seat pn pid .booked now = .ok (bs', -1) ∧
      findBooking bs' seat = some (bookedBooking b pn pid now) ∧
      bs'.length = bs.length := by
  induction bs with
  | nil => simp [findBooking] at hfind
  | cons hd tl ih =>
    rw [findBooking] at hfind
    by_cases h : hd.seat_number = seat
    · rw [if_pos h] at hfind
      obtain rfl : hd = b := Option.some.inj hfind
      refine ⟨bookedBooking hd pn pid now :: tl, ?_, ?_, rfl⟩
      · rw [applyToBookings, if_pos h, if_neg (by simp [hav]),
          if_neg (by simp)]
        simp [bookedBooking]
      · simp [findBooking, bookedBooking, h]
    · rw [if_neg h] at hfind
      obtain ⟨bs', h1, h2, h3⟩ := ih hfind
      refine ⟨hd :: bs', ?_, ?_, by simp [h3]⟩
      · rw [applyToBookings, if_neg h, h1]
      · rw [findBooking, if_neg h, h2]

lemma applyToBookings_cancel (seat pn pid : String) (now : Int)
    (bs : List Booking) (b : Booking)
    (hfind : findBooking bs seat = some b)
    (hbk : b.booking_status = .booked)
    (hname : b.passenger_name = some pn) (hid : b.passenger_id = some pid) :
    ∃ bs', applyToBookings bs seat pn pid .available now = .ok (bs', 1) ∧
      findBooking bs' seat = some (clearedBooking b) ∧
      bs'.length = bs.length := by
  induction bs with
  | nil => simp [findBooking] at hfind
  | cons hd tl ih =>
    rw [findBooking] at hfind
    by_cases h : hd.seat_number = seat
    · rw [if_pos h] at hfind
      obtain rfl : hd = b := Option.some.inj hfind
      refine ⟨clearedBooking hd :: tl, ?_, ?_, rfl⟩
      · rw [applyToBookings, if_pos h, if_neg (by simp [hbk]),
          if_neg (by simp [hname, hid])]
        simp [clearedBooking]
      · simp [findBooking, clearedBooking, h]
    · rw [if_neg h] at hfind
      obtain ⟨bs', h1, h2, h3⟩ := ih hfind
      refine ⟨hd :: bs', ?_, ?_, by simp [h3]⟩
      · rw [applyToBookings, if_neg h, h1]
      · rw [findBooking, if_neg h, h2]

/-- Claim C3: booking an AVAILABLE seat succeeds, records the passenger
data and the booking time on that seat, and decrements `seats_available`
by exactly 1. -/
theorem book_available_seat (f : Flight) (seat pn pid : String) (now : Int)
    (b : Booking) (hfind : findBooking f.bookings seat = some b)
    (hav : b.booking_status = .available) :
    ∃ f', book_flight f seat pn pid .booked now = .ok f' ∧
      findBooking f'.bookings seat = some (bookedBooking b pn pid now) ∧
      f'.seats_available = f.seats_available - 1 := by
  obtain ⟨bs', h1, h2, _⟩ :=
    applyToBookings_book seat pn pid now f.bookings b hfind hav
  refine ⟨{ f with
              bookings := bs',
              seats_available := f.seats_available + -1 }, ?_, h2, ?_⟩
  · rw [book_flight, h1]
  · show f.seats_available + -1 = f.seats_available - 1
    omega

/-- A concrete flight in which seat "1" is booked by Alice. -/
def demoBooked : Flight :=
  { demoFlight with
    seats_available := 1
    bookings :=
      [{ seat_number := "1", booking_status := .booked,
         passenger_name := some "Alice", passenger_id := some "ID1",
         booking_time := some 100 },
       { seat_number := "2", booking_status := .available,
         passenger_name := none, passenger_id := none,
         booking_time := none }] }

/-- Closed instance of `book_available_seat` on `demoFlight`. -/
theorem book_available_seat_witness :
    ∃ f', book_flight demoFlight "1" "Alice" "ID1" .booked 100 = .ok f' ∧
      findBooking f'.bookings "1" = some (bookedBooking
        { seat_number := "1", booking_status := .available,
          passenger_name := none, passenger_id := none,
          booking_time := none } "Alice" "ID1" 100) ∧
      f'.seats_available = demoFlight.seats_available - 1 :=
  book_available_seat demoFlight "1" "Alice" "ID1" 100
    { seat_number := "1", booking_status := .available,
      passenger_name := none, passenger_id := none, booking_time := none }
    rfl rfl

/-- Claim C4: cancelling a BOOKED seat with the stored passenger identity
succeeds, clears the passenger data and booking time on that seat, and
increments `seats_available` by exactly 1. -/
theorem cancel_booked_seat (f : Flight) (seat pn pid : String) (now : Int)
    (b : Booking) (hfind : findBooking f.bookings seat = some b)
    (hbk : b.booking_status = .booked)
    (hname : b.passenger_name = some pn)
    (hid : b.passenger_id = some pid) :
    ∃ f', book_flight f seat pn pid .available now = .ok f' ∧
      findBooking f'.bookings seat = some (clearedBooking b) ∧
      f'.seats_available = f.seats_available + 1 := by
  obtain ⟨bs', h1, h2, _⟩ :=
    applyToBookings_cancel seat pn pid now f.bookings b hfind hbk hname hid
  refine ⟨{ f with
              bookings := bs',
              seats_available := f.seats_available + 1 }, ?_, h2, rfl⟩
  rw [book_flight, h1]

/-- Closed instance of `cancel_booked_seat` on `demoBooked`. -/
theorem cancel_booked_seat_witness :
    ∃ f', book_flight demoBooked "1" "Alice" "ID1" .available 200 = .ok f' ∧
      findBooking f'.bookings "1" = some (clearedBooking
        { seat_number := "1", booking_status := .booked,
          passenger_name := some "Alice", passenger_id := some "ID1",
          booking_time := some 100 }) ∧
      f'.seats_available = demoBooked.seats_available + 1 :=
  cancel_booked_seat demoBooked "1" "Alice" "ID1" 200
    { seat_number := "1", booking_status := .booked,
      passenger_name := some "Alice", passenger_id := some "ID1",
      booking_time := some 100 }
    rfl rfl rfl rfl

/-- Claim C5: cancelling with a passenger name or id different from the
stored ones fails with the identity-mismatch error and leaves the
persisted flight unchanged. -/
theorem cancel_identity_mismatch (f : Flight) (seat pn pid : String)
    (now : Int) (b : Booking) (hfind : findBooking f.bookings seat = some b)
    (hbk : b.booking_status = .booked)
    (hmm : b.passenger_name ≠ some pn ∨ b.passenger_id ≠ some pid) :
    book_flight f seat pn pid .available now = .error .identityMismatch ∧
    book_flight_persisted f seat pn pid .available now = f := by
  have h1 := applyToBookings_mismatch seat pn pid now f.bookings b hfind hbk
    (hmm.elim (fun hn => Or.inr hn) (fun hi => Or.inl hi))
  have h2 : book_flight f seat pn pid .available now =
      .error .identityMismatch := by
    rw [book_flight, h1]
  exact ⟨h2, by rw [book_flight_persisted, h2]⟩

/-- Closed instance of `cancel_identity_mismatch`: Bob cannot cancel
Alice's seat. -/
theorem cancel_identity_mismatch_witness :
    book_flight demoBooked "1" "Bob" "ID2" .available 200 =
      .error .identityMismatch ∧
    book_flight_persisted demoBooked "1" "Bob" "ID2" .available 200 =
      demoBooked :=
  cancel_identity_mismatch demoBooked "1" "Bob" "ID2" 200
    { seat_number := "1", booking_status := .booked,
      passenger_name := some "Alice", passenger_id := some "ID1",
      booking_time := some 100 }
    rfl rfl (Or.inl (by decide))

/-- Claim C6: requesting the status the seat already has fails with the
no-op-transition error and leaves the persisted flight unchanged. -/
theorem noop_transition (f : Flight) (seat pn pid : String)
    (status : BookingStatus) (now : Int) (b : Booking)
    (hfind : findBooking f.bookings seat = some b)
    (hst : b.booking_status = status) :
    book_flight f seat pn pid status now = .error .noOpTransition ∧
    book_flight_persisted f seat pn pid status now = f := by
  have h1 := applyToBookings_noOp seat pn pid status now f.bookings b hfind
    hst
  have h2 : book_flight f seat pn pid status now =
      .error .noOpTransition := by
    rw [book_flight, h1]
  exact ⟨h2, by rw [book_flight_persisted, h2]⟩

/-- Closed instance of `noop_transition`: booking the already-booked seat
"1" fails without mutation. -/
theorem noop_transition_witness :
    book_flight demoBooked "1" "Carol" "ID3" .booked 300 =
      .error .noOpTransition ∧
    book_flight_persisted demoBooked "1" "Carol" "ID3" .booked 300 =
      demoBooked :=
  noop_transition demoBooked "1" "Carol" "ID3" .booked 300
    { seat_number := "1", booking_status := .booked,
      passenger_name := some "Alice", passenger_id := some "ID1",
      booking_time := some 100 }
    rfl rfl

/-! ### The seats_available / booking-status synchronisation invariant -/

lemma countAvailable_cons (b : Booking) (bs : List Booking) :
    countAvailable (b :: bs) =
      (if b.booking_status = .available then 1 else 0) + countAvailable bs
    := by
  by_cases hb : b.booking_status = .available
  · simp [countAvailable, hb]
    omega
  · simp [countAvailable, hb]

lemma countAvailable_eq_length_of_all (bs : List Booking)
    (h : ∀ b ∈ bs, b.booking_status = .available) :
    countAvailable bs = bs.length := by
  induction bs with
  | nil => rfl
  | cons hd tl ih =>
    rw [countAvailable_cons, if_pos (h hd (by simp)),
      ih (fun b hb => h b (by simp [hb]))]
    simp [Nat.add_comm]

/-- Shape of every successful run of the booking loop: the bookings list
keeps its length, the reported delta is `-1` for a booking and `+1` for a
cancellation, and the number of AVAILABLE bookings moves by exactly that
delta. -/
lemma applyToBookings_ok_spec (seat pn pid : String)
    (status : BookingStatus) (now : Int) :
    ∀ (bs bs' : List Booking) (d : Int),
    applyToBookings bs seat pn pid status now = .ok (bs', d) →
    bs'.length = bs.length ∧
    d = (if status = .booked then -1 else 1) ∧
    (countAvailable bs' : Int) = countAvailable bs + d := by
  intro bs
  induction bs with
  | nil =>
    intro bs' d h
    rw [applyToBookings] at h
    exact absurd h (by simp)
  | cons hd tl ih =>
    intro bs' d h
    rw [applyToBookings] at h
    by_cases hseat : hd.seat_number = seat
    · rw [if_pos hseat] at h
      by_cases hst : hd.booking_status = status
      · rw [if_pos hst] at h
        exact absurd h (by simp)
      · rw [if_neg hst] at h
        by_cases hmm : status = .available ∧
            (hd.passenger_id ≠ some pid ∨ hd.passenger_name ≠ some pn)
        · rw [if_pos hmm] at h
          exact absurd h (by simp)
        · rw [if_neg hmm] at h
          injection h with h'
          injection h' with ha hb
          subst ha
          subst hb
          cases status with
          | booked =>
            have hdav : hd.booking_status = .available := by
              cases hx : hd.booking_status
              · rfl
              · exact absurd hx hst
            refine ⟨by simp, rfl, ?_⟩
            rw [countAvailable_cons, countAvailable_cons]
            simp [hdav]
          | available =>
            have hdbk : hd.booking_status = .booked := by
              cases hx : hd.booking_status
              · exact absurd hx hst
              · rfl
            refine ⟨by simp, rfl, ?_⟩
            rw [countAvailable_cons, countAvailable_cons]
            simp [hdbk]
            omega
    · rw [if_neg hseat] at h
      cases hrec : applyToBookings tl seat pn pid status now with
      | error e =>
        rw [hrec] at h
        exact absurd h (by simp)
      | ok p =>
        obtain ⟨tl', d0⟩ := p
        rw [hrec] at h
        injection h with h'
        injection h' with ha hb
        subst ha
        subst hb
        obtain ⟨l1, l2, l3⟩ := ih tl' d0 hrec
        refine ⟨by simp [l1], l2, ?_⟩
        rw [countAvailable_cons, countAvailable_cons]
        by_cases hda : hd.booking_status = .available
        · simp only [if_pos hda]
          push_cast
          omega
        · simp only [if_neg hda]
          push_cast
          omega

/-- The synchronisation invariant: `seats_available` equals the number of
AVAILABLE bookings, and the bookings list has one entry per seat. -/
def FlightInv (f : Flight) : Prop :=
  f.seats_available = (countAvailable f.bookings : Int) ∧
  f.bookings.length = f.seats_total.toNat ∧ 0 ≤ f.seats_total

/-- The flights reachable through the repository: created by `add_flight`
with a (non-negative) seat count and then evolved by any number of
`book_flight` transitions.  Failing transitions return an error without
producing a new state, so only successful ones appear as steps. -/
inductive Reachable : Flight → Prop where
  | created (fn : String) (dep : Int) (o d : String) (arr : Int) (n : Nat)
      (fl : Flight) :
      add_flight fn dep o d arr (n : Int) = .ok fl → Reachable fl
  | stepped (f : Flight) (seat pn pid : String) (status : BookingStatus)
      (now : Int) (f' : Flight) :
      Reachable f → book_flight f seat pn pid status now = .ok f' →
      Reachable f'

lemma add_flight_inv (fn : String) (dep : Int) (o d : String) (arr : Int)
    (n : Nat) (fl : Flight)
    (h : add_flight fn dep o d arr (n : Int) = .ok fl) : FlightInv fl := by
  rw [add_flight] at h
  by_cases hle : arr ≤ dep
  · rw [if_pos hle] at h
    exact absurd h (by simp)
  · rw [if_neg hle] at h
    injection h with h'
    subst h'
    refine ⟨?_, by simp, Int.natCast_nonneg n⟩
    show (n : Int) = (countAvailable _ : Int)
    rw [countAvailable_eq_length_of_all]
    · simp
    · intro b hb
      simp only [List.mem_map] at hb
      obtain ⟨i, _, rfl⟩ := hb
      rfl

lemma book_flight_inv (f f' : Flight) (seat pn pid : String)
    (status : BookingStatus) (now : Int) (hinv : FlightInv f)
    (h : book_flight f seat pn pid status now = .ok f') : FlightInv f' := by
  rw [book_flight] at h
  cases hrec : applyToBookings f.bookings seat pn pid status now with
  | error e =>
    rw [hrec] at h
    exact absurd h (by simp)
  | ok p =>
    obtain ⟨bs', d⟩ := p
    rw [hrec] at h
    injection h with h'
    subst h'
    obtain ⟨l1, l2, l3⟩ :=
      applyToBookings_ok_spec seat pn pid status now f.bookings bs' d hrec
    obtain ⟨i1, i2, i3⟩ := hinv
    refine ⟨?_, ?_, i3⟩
    · show f.seats_available + d = (countAvailable bs' : Int)
      omega
    · show bs'.length = f.seats_total.toNat
      omega

lemma reachable_flightInv (f : Flight) (h : Reachable f) : FlightInv f := by
  induction h with
  | created fn dep o d arr n fl hc => exact add_flight_inv fn dep o d arr n fl hc
  | stepped g seat pn pid status now g' _ hstep ih =>
    exact book_flight_inv g g' seat pn pid status now ih hstep

/-- Claim C7: in every state reachable from flight creation through
booking/cancellation transitions, `seats_available` equals the number of
AVAILABLE bookings, and therefore stays between 0 and `seats_total`. -/
theorem reachable_seats_available (f : Flight) (h : Reachable f) :
    f.seats_available = (countAvailable f.bookings : Int) ∧
    0 ≤ f.seats_available ∧ f.seats_available ≤ f.seats_total := by
  obtain ⟨i1, i2, i3⟩ := reachable_flightInv f h
  have hle : countAvailable f.bookings ≤ f.bookings.length :=
    List.length_filter_le _ _
  refine ⟨i1, ?_, ?_⟩
  · rw [i1]
    exact Int.natCast_nonneg _
  · omega

/-- Closed instance of `reachable_seats_available` after creating a
two-seat flight and booking one seat. -/
theorem reachable_seats_available_witness :
    demoBooked.seats_available = (countAvailable demoBooked.bookings : Int) ∧
    0 ≤ demoBooked.seats_available ∧
    demoBooked.seats_available ≤ demoBooked.seats_total :=
  reachable_seats_available demoBooked
    (Reachable.stepped demoFlight "1" "Alice" "ID1" .booked 100 demoBooked
      (Reachable.created "CA9" 0 "A" "B" 9 2 demoFlight rfl) rfl)

end FlightMS
